import Mathlib

/-!
Verification development for the chat-session backend
(controllers/chat.ts, models/chat.ts).

The TypeScript handlers are embedded as pure Lean functions:
- the session store is an explicit list of sessions (Mongo documents),
  with `findSession` modelling `ChatSession.findOne({ sessionId })` and
  `saveSession` modelling `session.save()` writing the document back;
- the generation oracle (Gemini) and `JSON.parse` are external
  collaborators, so their outcomes are inputs of the model
  (`Except Unit String` for each oracle call, a partial parser for
  `JSON.parse` of the analysis shape, a Boolean for save success);
- `sendMessage` additionally returns an event trace recording, in
  program order, the telemetry emission (with the history it carries),
  the two oracle invocations and the final save, so that temporal
  claims about the pipeline can be stated and settled.

String operations mirror the JavaScript ones on the inputs that occur:
`jsToLower` maps characters to lower case as `toLowerCase` does on
ASCII, `strContains` is `String.prototype.includes`, `jsLength` counts
UTF-16 code units as `.length` does, and `takeUtf16` truncates by
UTF-16 code units as `.substring(0, n)` does.
-/

/-- Message role. The schema enum in models/chat.ts admits exactly
`user` and `assistant`. -/
inductive Role where
  | user
  | assistant
deriving DecidableEq, Repr

/-- The structured analysis requested from the oracle in `sendMessage`
(controllers/chat.ts, analysis prompt). -/
structure Analysis where
  emotionalState : String
  themes : List String
  riskLevel : Int
  recommendedApproach : String
  progressIndicators : List String
deriving DecidableEq, Repr

/-- The progress projection stored in assistant-message metadata:
`emotionalState` and `riskLevel` only. -/
structure ProgressInfo where
  emotionalState : String
  riskLevel : Int
deriving DecidableEq, Repr

/-- Metadata attached to an assistant message in `sendMessage`. -/
structure MsgMetadata where
  analysis : Analysis
  progress : ProgressInfo
deriving DecidableEq, Repr

/-- A chat message as in models/chat.ts (timestamps as naturals). -/
structure Message where
  role : Role
  content : String
  timestamp : Nat
  metadata : Option MsgMetadata
deriving DecidableEq, Repr

/-- A chat session document as in models/chat.ts. User ids are opaque
strings (the code compares them with `toString()` equality). -/
structure Session where
  sessionId : String
  userId : String
  messages : List Message
  topic : Option String
  status : String
deriving DecidableEq, Repr

/-- `ChatSession.findOne({ sessionId })`: first stored session with the
given identifier. -/
def findSession (sid : String) (store : List Session) : Option Session :=
  store.find? (fun s => s.sessionId == sid)

/-- `session.save()`: write the (updated) document back over the stored
document with the same identifier. -/
def saveSession (s : Session) (store : List Session) : List Session :=
  store.map (fun t => if t.sessionId == s.sessionId then s else t)

/-- Outcomes of the external collaborators used by `sendMessage`:
the two Gemini calls, `JSON.parse` on the cleaned analysis text, the
success of the final `session.save()`, and the current time. -/
structure OracleEnv where
  analysisResult : Except Unit String
  replyResult : Except Unit String
  parseAnalysis : String → Option Analysis
  saveOk : Bool
  now : Nat

/-- The request body field `message`: absent, present but not a string,
or a string. -/
inductive BodyValue where
  | missing
  | nonString
  | text (s : String)
deriving DecidableEq, Repr

/-- Outcome of `sendMessage`, matching the HTTP statuses of the
handler: 400, 401, 404, 403, 200 with reply and analysis, 500. -/
inductive SendResult where
  | validationError
  | unauthenticated
  | notFound
  | forbidden
  | ok (response : String) (analysis : Analysis)
  | internalError
deriving DecidableEq, Repr

/-- Observable pipeline events of `sendMessage`, in program order: the
telemetry (Inngest) emission carrying the history it sends, the two
oracle invocations, and the save attempt. -/
inductive Event where
  | inngestSend (history : List Message)
  | oracleAnalysis
  | oracleReply
  | save (ok : Bool)
deriving DecidableEq, Repr

/-- Whitespace as JavaScript `trim` treats it (ASCII part). -/
def isJsWhitespace (c : Char) : Bool :=
  c == ' ' || c == '\t' || c == '\n' || c == '\r' || c == Char.ofNat 11 || c == Char.ofNat 12

/-- `String.prototype.trim`: strip leading and trailing whitespace. -/
def jsTrim (s : String) : String :=
  String.mk (((s.toList.dropWhile isJsWhitespace).reverse.dropWhile isJsWhitespace).reverse)

/-- Code-fence cleanup applied to the raw analysis text in
`sendMessage` before `JSON.parse`. -/
def cleanAnalysisText (s : String) : String :=
  jsTrim ((((s.replace "```json\n" "").replace "```json" "").replace "\n```" "").replace "```" "")

/-- The fixed fallback analysis of `sendMessage` (controllers/chat.ts,
catch branch of the analysis call). -/
def fallbackAnalysis : Analysis :=
  { emotionalState := "seeking_support"
    themes := ["anxiety_management"]
    riskLevel := 1
    recommendedApproach := "cognitive_behavioral"
    progressIndicators := ["active_engagement"] }

/-- The fixed fallback reply sentence of `sendMessage`
(controllers/chat.ts, catch branch of the reply call). -/
def fallbackResponse : String :=
  "I hear that you\x27re looking for support with managing anxiety. That\x27s a very common concern, and it\x27s great that you\x27re reaching out. There are several effective strategies we can explore together. What specific situations tend to trigger your anxiety the most?"

/-- The analysis value used by `sendMessage`: the parsed oracle answer,
or the fixed fallback if the call failed or the cleaned text does not
parse. -/
def computeAnalysis (env : OracleEnv) : Analysis :=
  match env.analysisResult with
  | .error _ => fallbackAnalysis
  | .ok text =>
      match env.parseAnalysis (cleanAnalysisText (jsTrim text)) with
      | none => fallbackAnalysis
      | some a => a

/-- The reply text used by `sendMessage`: the trimmed oracle answer, or
the fixed fallback sentence if the call failed. -/
def computeReply (env : OracleEnv) : String :=
  match env.replyResult with
  | .error _ => fallbackResponse
  | .ok text => jsTrim text

/-- The user turn appended by `sendMessage`. -/
def userTurn (env : OracleEnv) (m : String) : Message :=
  { role := .user, content := jsTrim m, timestamp := env.now, metadata := none }

/-- The assistant turn appended by `sendMessage`, with the analysis and
its progress projection as metadata. -/
def assistantTurn (env : OracleEnv) (analysis : Analysis) (response : String) : Message :=
  { role := .assistant
    content := response
    timestamp := env.now
    metadata := some
      { analysis := analysis
        progress :=
          { emotionalState := analysis.emotionalState
            riskLevel := analysis.riskLevel } } }

/-- The main flow of `sendMessage` after validation, authentication,
lookup and the ownership check: push the user turn onto the in-memory
document, emit telemetry with that history, run the two oracle calls
(each with its fallback), push the assistant turn, then perform the
single `session.save()`. -/
def processTurns (env : OracleEnv) (store : List Session) (session : Session) (m : String) :
    SendResult × List Session × List Event :=
  let session1 := { session with messages := session.messages ++ [userTurn env m] }
  let analysis := computeAnalysis env
  let response := computeReply env
  let session2 := { session1 with messages := session1.messages ++ [assistantTurn env analysis response] }
  let trace := [Event.inngestSend session1.messages, Event.oracleAnalysis,
    Event.oracleReply, Event.save env.saveOk]
  if env.saveOk then (SendResult.ok response analysis, saveSession session2 store, trace)
  else (SendResult.internalError, store, trace)

/-- `sendMessage` (controllers/chat.ts): validation of the body field,
authentication, session lookup, ownership check, then the main flow. -/
def sendMessage (env : OracleEnv) (store : List Session) (user : Option String)
    (sid : String) (body : BodyValue) : SendResult × List Session × List Event :=
  match body with
  | .missing => (SendResult.validationError, store, [])
  | .nonString => (SendResult.validationError, store, [])
  | .text m =>
      if (jsTrim m).isEmpty then (SendResult.validationError, store, [])
      else
        match user with
        | none => (SendResult.unauthenticated, store, [])
        | some uid =>
            match findSession sid store with
            | none => (SendResult.notFound, store, [])
            | some session =>
                if session.userId ≠ uid then (SendResult.forbidden, store, [])
                else processTurns env store session m

/-- The validation predicate of `sendMessage` on the body field:
absent, not a string, or empty after trimming. -/
def invalidMessageBody : BodyValue → Bool
  | .missing => true
  | .nonString => true
  | .text s => (jsTrim s).isEmpty

/-- Whether an event is a save attempt. -/
def isSaveEvent : Event → Bool
  | .save _ => true
  | _ => false

/-- Number of save attempts in a trace. -/
def countSaves (tr : List Event) : Nat := (tr.filter isSaveEvent).length

/-- Whether some oracle invocation occurs strictly before any save
attempt in a trace. -/
def oracleBeforeSave : List Event → Bool
  | [] => false
  | .save _ :: _ => false
  | .oracleAnalysis :: _ => true
  | .oracleReply :: _ => true
  | .inngestSend _ :: tr => oracleBeforeSave tr

/-- A message as it arrives in the `generateTopic` request body:
arbitrary JSON, so `role` and `content` may each be absent (or not a
string, which behaves the same for the operations used on them). -/
structure RawMsg where
  role : Option String
  content : Option String
deriving DecidableEq, Repr

/-- Character-level lower-casing, as `toLowerCase` acts on ASCII. -/
def jsToLower (s : String) : String :=
  String.mk (s.toList.map Char.toLower)

/-- Whether `pat` occurs as a contiguous run inside `hay`. -/
def charsHaveSub (pat : List Char) : List Char → Bool
  | [] => pat.isEmpty
  | c :: cs => pat.isPrefixOf (c :: cs) || charsHaveSub pat cs

/-- `String.prototype.includes`: substring containment. -/
def strContains (s pat : String) : Bool :=
  charsHaveSub pat.toList s.toList

/-- The keyword-to-topic map of `generateFallbackTopic`, in the
enumeration order of its object literal (insertion order, which is how
`Object.entries` enumerates string keys). -/
def topicMap : List (String × String) :=
  [("anxiety", "💭 Anxiety Support"),
   ("anxious", "💭 Anxiety Support"),
   ("worried", "💭 Anxiety Support"),
   ("stress", "😰 Stress Management"),
   ("stressed", "😰 Stress Management"),
   ("overwhelmed", "🌊 Feeling Overwhelmed"),
   ("sleep", "😴 Sleep Issues"),
   ("insomnia", "😴 Sleep Problems"),
   ("tired", "😴 Sleep & Energy"),
   ("depression", "🌧️ Depression Support"),
   ("depressed", "🌧️ Depression Support"),
   ("sad", "😢 Emotional Support"),
   ("work", "💼 Work Issues"),
   ("job", "💼 Work Stress"),
   ("relationship", "💕 Relationship Help"),
   ("partner", "💕 Relationship Issues"),
   ("family", "👨‍👩‍👧‍👦 Family Matters"),
   ("panic", "⚡ Panic Support"),
   ("anger", "😡 Anger Management"),
   ("angry", "😡 Anger Management"),
   ("lonely", "🤗 Loneliness Support"),
   ("confidence", "💪 Building Confidence"),
   ("self-esteem", "💪 Self-Worth"),
   ("grief", "💙 Grief Support"),
   ("loss", "💙 Coping with Loss")]

/-- The label `generateFallbackTopic` synthesizes when no keyword
matches: first three space-separated words of the (lowercased) first
user message, first character upper-cased, behind a generic marker. -/
def fallbackFromWords (firstMessage : String) : String :=
  let words := " ".intercalate ((firstMessage.splitOn " ").take 3)
  let capitalized :=
    match words.toList with
    | [] => words
    | c :: cs => String.mk (c.toUpper :: cs)
  "💬 " ++ capitalized

/-- The keyword scan of `generateFallbackTopic` over the lowercased
first user message: first map entry whose keyword occurs in it wins,
otherwise the synthesized label. -/
def keywordTopic (firstMessage : String) : String :=
  match topicMap.find? (fun kv => strContains firstMessage kv.1) with
  | some kv => kv.2
  | none => fallbackFromWords firstMessage

/-- `generateFallbackTopic` (controllers/chat.ts). `Except.error`
models the `TypeError` raised when the first user-role message has no
(string) content, so that `msg.content.toLowerCase()` throws. -/
def generateFallbackTopic (messages : List RawMsg) : Except Unit String :=
  if messages.isEmpty then Except.ok "💬 New Chat"
  else
    match messages.filter (fun m => m.role == some "user") with
    | [] => Except.ok "💬 New Chat"
    | m :: _ =>
        match m.content with
        | none => Except.error ()
        | some c => Except.ok (keywordTopic (jsToLower c))

/-- The `messages` field of the `generateTopic` request body: absent,
present but not an array, or an array of raw messages. -/
inductive MsgsBody where
  | missing
  | notArray
  | arr (msgs : List RawMsg)
deriving DecidableEq, Repr

/-- Outcome of `generateTopic`: 400, 401, 200 with a topic, or 500
carrying the ultimate-fallback topic in the error body. -/
inductive TopicResult where
  | validationError
  | unauthenticated
  | ok (topic : String)
  | serverError (topic : String)
deriving DecidableEq, Repr

/-- UTF-16 width of a character, as JavaScript counts string length. -/
def utf16Width (c : Char) : Nat :=
  if c.toNat < 65536 then 1 else 2

/-- `String.prototype.length`: number of UTF-16 code units. -/
def jsLength (s : String) : Nat :=
  (s.toList.map utf16Width).sum

/-- The quote cleanup `topic.replace(/[\x27"]/g, "")` of
`generateTopic`: drop every single- and double-quote character. -/
def stripQuotes (s : String) : String :=
  String.mk (s.toList.filter (fun c => !(c == Char.ofNat 39 || c == Char.ofNat 34)))

/-- The catch branch of `generateTopic`: try the fallback policy on the
body messages; if it also throws, answer 500 with the hardcoded
ultimate-fallback topic. -/
def topicCatch (msgs : List RawMsg) : TopicResult :=
  match generateFallbackTopic msgs with
  | .ok t => TopicResult.ok t
  | .error _ => TopicResult.serverError "💬 Therapy Session"

/-- `generateTopic` (controllers/chat.ts): validation, authentication,
then the oracle call, whose cleaned answer is replaced by the fallback
policy when it is empty or longer than 50 UTF-16 units; any failure
(a message without content making the prompt construction throw, or
the oracle call failing) lands in the catch branch. -/
def generateTopic (topicResult : Except Unit String) (user : Option String)
    (body : MsgsBody) : TopicResult :=
  match body with
  | .missing => TopicResult.validationError
  | .notArray => TopicResult.validationError
  | .arr msgs =>
      if msgs.isEmpty then TopicResult.validationError
      else
        match user with
        | none => TopicResult.unauthenticated
        | some _ =>
            if msgs.any (fun m => m.content.isNone) then topicCatch msgs
            else
              match topicResult with
              | .error _ => topicCatch msgs
              | .ok text =>
                  let topic := jsTrim (stripQuotes (jsTrim text))
                  if topic = "" ∨ jsLength topic > 50 then
                    match generateFallbackTopic msgs with
                    | .ok t => TopicResult.ok t
                    | .error _ => topicCatch msgs
                  else TopicResult.ok topic

/-- Outcome of `updateSessionTopic`: 400, 401, 404, 403, 200 with the
stored topic, or 500 when the save fails. -/
inductive UpdateResult where
  | validationError
  | unauthenticated
  | notFound
  | forbidden
  | ok (topic : String)
  | internalError
deriving DecidableEq, Repr

/-- Truncation by UTF-16 code units, as `substring(0, n)` truncates. -/
def takeUtf16 : Nat → List Char → List Char
  | _, [] => []
  | n, c :: cs =>
      if utf16Width c ≤ n then c :: takeUtf16 (n - utf16Width c) cs else []

/-- `s.substring(0, n)` on a string. -/
def jsSubstringTo (s : String) (n : Nat) : String :=
  String.mk (takeUtf16 n s.toList)

/-- `updateSessionTopic` (controllers/chat.ts): validate the topic,
authenticate, look the session up, check ownership, then store the
trimmed topic truncated to 100 units and answer with the stored
value. -/
def updateSessionTopic (saveOk : Bool) (store : List Session) (user : Option String)
    (sid : String) (body : BodyValue) : UpdateResult × List Session :=
  match body with
  | .missing => (UpdateResult.validationError, store)
  | .nonString => (UpdateResult.validationError, store)
  | .text topic =>
      if (jsTrim topic).isEmpty then (UpdateResult.validationError, store)
      else
        match user with
        | none => (UpdateResult.unauthenticated, store)
        | some uid =>
            match findSession sid store with
            | none => (UpdateResult.notFound, store)
            | some session =>
                if session.userId ≠ uid then (UpdateResult.forbidden, store)
                else
                  let newTopic := jsSubstringTo (jsTrim topic) 100
                  let session2 := { session with topic := some newTopic }
                  if saveOk then (UpdateResult.ok newTopic, saveSession session2 store)
                  else (UpdateResult.internalError, store)

/-! ### Fixtures used by concrete instantiations -/

/-- Sample collaborator outcomes: both oracle calls fail, nothing
parses, the save succeeds. -/
def envA : OracleEnv :=
  { analysisResult := Except.error (), replyResult := Except.error (),
    parseAnalysis := fun _ => none, saveOk := true, now := 0 }

/-- Sample collaborator outcomes with a failing save. -/
def envF : OracleEnv :=
  { analysisResult := Except.error (), replyResult := Except.error (),
    parseAnalysis := fun _ => none, saveOk := false, now := 0 }

/-- A stored session owned by alice with no messages yet. -/
def sessA : Session :=
  { sessionId := "s1", userId := "alice", messages := [], topic := none, status := "active" }

/-! ### Helper lemmas -/

/-- Every run of `sendMessage` either stops in an early guard, leaving
the store untouched, emitting no event and answering no reply, or
reaches the main flow with a validated message, a found session and an
owning caller. -/
theorem sendMessage_shape (env : OracleEnv) (store : List Session) (user : Option String)
    (sid : String) (body : BodyValue) :
    ((sendMessage env store user sid body).2.1 = store ∧
      (sendMessage env store user sid body).2.2 = [] ∧
      ∀ r a, (sendMessage env store user sid body).1 ≠ SendResult.ok r a) ∨
    (∃ session m, body = BodyValue.text m ∧ (jsTrim m).isEmpty = false ∧
      findSession sid store = some session ∧ user = some session.userId ∧
      sendMessage env store user sid body = processTurns env store session m) := by
  cases body with
  | missing => exact Or.inl ⟨rfl, rfl, by simp [sendMessage]⟩
  | nonString => exact Or.inl ⟨rfl, rfl, by simp [sendMessage]⟩
  | text m =>
      by_cases hm : (jsTrim m).isEmpty = true
      · exact Or.inl ⟨by simp [sendMessage, hm], by simp [sendMessage, hm],
          by simp [sendMessage, hm]⟩
      · cases user with
        | none => exact Or.inl ⟨by simp [sendMessage, hm], by simp [sendMessage, hm],
            by simp [sendMessage, hm]⟩
        | some uid =>
            cases hfind : findSession sid store with
            | none => exact Or.inl ⟨by simp [sendMessage, hm, hfind],
                by simp [sendMessage, hm, hfind], by simp [sendMessage, hm, hfind]⟩
            | some session =>
                by_cases hown : session.userId = uid
                · subst hown
                  exact Or.inr ⟨session, m, rfl, by simpa using hm, rfl, rfl,
                    by simp [sendMessage, hm, hfind]⟩
                · exact Or.inl ⟨by simp [sendMessage, hm, hfind, hown],
                    by simp [sendMessage, hm, hfind, hown],
                    by simp [sendMessage, hm, hfind, hown]⟩

/-! ### Claims -/

/-- C1 (counterexample): a fully valid submission to an owned session
in which the final save fails. The run still invokes both oracle calls
before any save attempt (`oracleBeforeSave` of its trace is true), it
fails, and the store still holds the original session without the
user message — so the user turn was never committed before the oracle
was invoked, and oracle calls do occur although the only commit
fails. -/
theorem c1_counterexample :
    (sendMessage envF [sessA] (some "alice") "s1" (BodyValue.text "hello")).1 =
      SendResult.internalError ∧
    oracleBeforeSave (sendMessage envF [sessA] (some "alice") "s1" (BodyValue.text "hello")).2.2 =
      true ∧
    (sendMessage envF [sessA] (some "alice") "s1" (BodyValue.text "hello")).2.2 =
      [Event.inngestSend [userTurn envF "hello"], Event.oracleAnalysis, Event.oracleReply,
        Event.save false] ∧
    (sendMessage envF [sessA] (some "alice") "s1" (BodyValue.text "hello")).2.1 = [sessA] := by
  decide

/-- C1 (amended): in every valid submission the user turn is appended
to the in-memory message list before either oracle call — the
telemetry event that precedes both oracle invocations already carries
it — but durable persistence happens only at the single trailing save;
if that save fails, the store is unchanged. -/
theorem c1_amended (env : OracleEnv) (store : List Session) (sid m : String) (session : Session)
    (hm : (jsTrim m).isEmpty = false)
    (hfind : findSession sid store = some session) :
    (sendMessage env store (some session.userId) sid (BodyValue.text m)).2.2 =
      [Event.inngestSend (session.messages ++ [userTurn env m]), Event.oracleAnalysis,
        Event.oracleReply, Event.save env.saveOk] ∧
    (env.saveOk = false →
      (sendMessage env store (some session.userId) sid (BodyValue.text m)).2.1 = store) := by
  have hsm : sendMessage env store (some session.userId) sid (BodyValue.text m) =
      processTurns env store session m := by
    simp [sendMessage, hm, hfind]
  rw [hsm]
  unfold processTurns
  cases hsave : env.saveOk <;> simp [hsave]

/-- C1 (amended, witness): the concrete failing-save run. -/
theorem c1_amended_witness :
    (sendMessage envF [sessA] (some "alice") "s1" (BodyValue.text "hello")).2.2 =
      [Event.inngestSend (sessA.messages ++ [userTurn envF "hello"]), Event.oracleAnalysis,
        Event.oracleReply, Event.save envF.saveOk] ∧
    (sendMessage envF [sessA] (some "alice") "s1" (BodyValue.text "hello")).2.1 = [sessA] :=
  ⟨(c1_amended envF [sessA] "s1" "hello" sessA (by decide) (by decide)).1,
    (c1_amended envF [sessA] "s1" "hello" sessA (by decide) (by decide)).2 rfl⟩

/-- C2: a body field that is absent, not a string, or empty after
trimming is rejected with the validation error, the store is left
unchanged, and no pipeline event happens. -/
theorem c2_invalid_message_rejected (env : OracleEnv) (store : List Session)
    (user : Option String) (sid : String) (body : BodyValue)
    (h : invalidMessageBody body = true) :
    sendMessage env store user sid body = (SendResult.validationError, store, []) := by
  cases body with
  | missing => rfl
  | nonString => rfl
  | text s =>
      have hs : (jsTrim s).isEmpty = true := h
      simp [sendMessage, hs]

/-- C2 (witness): a whitespace-only message is rejected. -/
theorem c2_witness :
    sendMessage envA [sessA] (some "alice") "s1" (BodyValue.text "   ") =
      (SendResult.validationError, [sessA], []) :=
  c2_invalid_message_rejected envA [sessA] (some "alice") "s1" (BodyValue.text "   ") (by decide)

/-- C5: a submission to a session owned by someone else fails with the
forbidden error, leaves the store unchanged, and performs no append,
oracle call or save. -/
theorem c5_forbidden_no_state_change (env : OracleEnv) (store : List Session)
    (uid sid m : String) (session : Session)
    (hm : (jsTrim m).isEmpty = false)
    (hfind : findSession sid store = some session)
    (hown : session.userId ≠ uid) :
    sendMessage env store (some uid) sid (BodyValue.text m) =
      (SendResult.forbidden, store, []) := by
  simp [sendMessage, hm, hfind, hown]

/-- C5 (witness): bob cannot post into the session alice owns. -/
theorem c5_witness :
    sendMessage envA [sessA] (some "bob") "s1" (BodyValue.text "hello") =
      (SendResult.forbidden, [sessA], []) :=
  c5_forbidden_no_state_change envA [sessA] "bob" "s1" "hello" sessA
    (by decide) (by decide) (by decide)

/-- C9: every run of `sendMessage` performs at most one save, and when
that save fails, the stored session list is unchanged — neither the
user turn nor the assistant turn is durably stored — and no success
response is produced. -/
theorem c9_atomic_commit (env : OracleEnv) (store : List Session) (user : Option String)
    (sid : String) (body : BodyValue) :
    countSaves (sendMessage env store user sid body).2.2 ≤ 1 ∧
    (env.saveOk = false →
      (sendMessage env store user sid body).2.1 = store ∧
      ∀ r a, (sendMessage env store user sid body).1 ≠ SendResult.ok r a) := by
  rcases sendMessage_shape env store user sid body with
    ⟨hst, htr, hok⟩ | ⟨session, m, _, _, _, _, heq⟩
  · refine ⟨?_, fun _ => ⟨hst, hok⟩⟩
    rw [htr]; decide
  · rw [heq]
    unfold processTurns
    cases hsave : env.saveOk <;> simp [hsave, countSaves, isSaveEvent]

/-- C9 (witness): a concrete failing-save run keeps the store intact
and attempts exactly one save. -/
theorem c9_witness :
    countSaves (sendMessage envF [sessA] (some "alice") "s1" (BodyValue.text "hi")).2.2 ≤ 1 ∧
    (sendMessage envF [sessA] (some "alice") "s1" (BodyValue.text "hi")).2.1 = [sessA] :=
  ⟨(c9_atomic_commit envF [sessA] (some "alice") "s1" (BodyValue.text "hi")).1,
    ((c9_atomic_commit envF [sessA] (some "alice") "s1" (BodyValue.text "hi")).2 rfl).1⟩

/-- C3: whenever the analysis call fails, or returns text whose
fence-cleaned form does not parse, the analysis used is exactly the
fixed fallback analysis — it is what the success response carries and
what the stored assistant turn records in its metadata. -/
theorem c3_analysis_fallback (env : OracleEnv) (store : List Session)
    (sid m : String) (session : Session)
    (hm : (jsTrim m).isEmpty = false)
    (hfind : findSession sid store = some session)
    (hfail : env.analysisResult = Except.error () ∨
      ∃ t, env.analysisResult = Except.ok t ∧
        env.parseAnalysis (cleanAnalysisText (jsTrim t)) = none)
    (hsave : env.saveOk = true) :
    sendMessage env store (some session.userId) sid (BodyValue.text m) =
      (SendResult.ok (computeReply env) fallbackAnalysis,
        saveSession { session with messages := session.messages ++
          [userTurn env m, assistantTurn env fallbackAnalysis (computeReply env)] } store,
        [Event.inngestSend (session.messages ++ [userTurn env m]), Event.oracleAnalysis,
          Event.oracleReply, Event.save true]) := by
  have hca : computeAnalysis env = fallbackAnalysis := by
    rcases hfail with h | ⟨t, ht, hp⟩
    · simp [computeAnalysis, h]
    · simp [computeAnalysis, ht, hp]
  have hsm : sendMessage env store (some session.userId) sid (BodyValue.text m) =
      processTurns env store session m := by
    simp [sendMessage, hm, hfind]
  rw [hsm]
  unfold processTurns
  simp [hsave, hca]

/-- C3 (witness): failing analysis call on a concrete run. -/
theorem c3_witness :
    sendMessage envA [sessA] (some sessA.userId) "s1" (BodyValue.text "hello") =
      (SendResult.ok (computeReply envA) fallbackAnalysis,
        saveSession { sessA with messages := sessA.messages ++
          [userTurn envA "hello", assistantTurn envA fallbackAnalysis (computeReply envA)] }
          [sessA],
        [Event.inngestSend (sessA.messages ++ [userTurn envA "hello"]), Event.oracleAnalysis,
          Event.oracleReply, Event.save true]) :=
  c3_analysis_fallback envA [sessA] "s1" "hello" sessA (by decide) (by decide) (Or.inl rfl) rfl

/-- C4: whenever the reply call fails, the fixed fallback sentence is,
verbatim, both the content of the appended assistant message and the
reply the caller receives. -/
theorem c4_reply_fallback (env : OracleEnv) (store : List Session)
    (sid m : String) (session : Session)
    (hm : (jsTrim m).isEmpty = false)
    (hfind : findSession sid store = some session)
    (hrep : env.replyResult = Except.error ())
    (hsave : env.saveOk = true) :
    sendMessage env store (some session.userId) sid (BodyValue.text m) =
      (SendResult.ok fallbackResponse (computeAnalysis env),
        saveSession { session with messages := session.messages ++
          [userTurn env m, assistantTurn env (computeAnalysis env) fallbackResponse] } store,
        [Event.inngestSend (session.messages ++ [userTurn env m]), Event.oracleAnalysis,
          Event.oracleReply, Event.save true]) := by
  have hcr : computeReply env = fallbackResponse := by
    simp [computeReply, hrep]
  have hsm : sendMessage env store (some session.userId) sid (BodyValue.text m) =
      processTurns env store session m := by
    simp [sendMessage, hm, hfind]
  rw [hsm]
  unfold processTurns
  simp [hsave, hcr]

/-- C4 (witness): failing reply call on a concrete run. -/
theorem c4_witness :
    sendMessage envA [sessA] (some sessA.userId) "s1" (BodyValue.text "hello") =
      (SendResult.ok fallbackResponse (computeAnalysis envA),
        saveSession { sessA with messages := sessA.messages ++
          [userTurn envA "hello", assistantTurn envA (computeAnalysis envA) fallbackResponse] }
          [sessA],
        [Event.inngestSend (sessA.messages ++ [userTurn envA "hello"]), Event.oracleAnalysis,
          Event.oracleReply, Event.save true]) :=
  c4_reply_fallback envA [sessA] "s1" "hello" sessA (by decide) (by decide) rfl rfl

/-- `List.find?` returns the element at a split point when the
predicate rejects everything before it and accepts it. -/
theorem find_first_of_split {α : Type} (p : α → Bool) (pre : List α) (x : α) (post : List α)
    (hx : p x = true) (hpre : ∀ y ∈ pre, p y = false) :
    (pre ++ x :: post).find? p = some x := by
  induction pre with
  | nil => simp [List.find?, hx]
  | cons y ys ih =>
      have hy : p y = false := hpre y (List.mem_cons_self _ _)
      simp only [List.cons_append, List.find?, hy]
      exact ih (fun z hz => hpre z (List.mem_cons_of_mem _ hz))

/-- When the message list has a first user-role message with content,
the fallback policy answers the keyword scan of its lowercased
content. -/
theorem generateFallbackTopic_first_user (msgs : List RawMsg) (m : RawMsg)
    (rest : List RawMsg) (c : String)
    (hf : msgs.filter (fun x => x.role == some "user") = m :: rest)
    (hc : m.content = some c) :
    generateFallbackTopic msgs = Except.ok (keywordTopic (jsToLower c)) := by
  have hne : msgs.isEmpty = false := by
    cases msgs with
    | nil => simp at hf
    | cons _ _ => rfl
  simp [generateFallbackTopic, hne, hf, hc]

/-- C6: the fallback topic policy is a total function on message lists
whose user-role entries carry content (the shape of the data model):
it always produces a topic (purity and determinism are inherent in it
being a function of the list alone), and both the empty list and a
list without user-role messages yield the generic new-chat label. -/
theorem c6_fallback_topic_total (msgs : List RawMsg)
    (h : ∀ x ∈ msgs, x.role = some "user" → x.content.isSome = true) :
    (∃ t, generateFallbackTopic msgs = Except.ok t) ∧
    (msgs = [] → generateFallbackTopic msgs = Except.ok "💬 New Chat") ∧
    (msgs.filter (fun x => x.role == some "user") = [] →
      generateFallbackTopic msgs = Except.ok "💬 New Chat") := by
  refine ⟨?_, ?_, ?_⟩
  · by_cases hemp : msgs.isEmpty = true
    · exact ⟨"💬 New Chat", by simp [generateFallbackTopic, hemp]⟩
    · cases hf : msgs.filter (fun x => x.role == some "user") with
      | nil => exact ⟨"💬 New Chat", by simp [generateFallbackTopic, hemp, hf]⟩
      | cons mhd rest =>
          have hmem : mhd ∈ msgs ∧ (mhd.role == some "user") = true :=
            List.mem_filter.mp (by rw [hf]; exact List.mem_cons_self _ _)
          have hcont : mhd.content.isSome = true :=
            h mhd hmem.1 (by simpa using hmem.2)
          cases hc : mhd.content with
          | none => rw [hc] at hcont; simp at hcont
          | some c =>
              exact ⟨keywordTopic (jsToLower c),
                generateFallbackTopic_first_user msgs mhd rest c hf hc⟩
  · intro h0
    subst h0
    rfl
  · intro hf
    by_cases hemp : msgs.isEmpty = true
    · simp [generateFallbackTopic, hemp]
    · simp [generateFallbackTopic, hemp, hf]

/-- C6 (witness): the empty list yields the generic label. -/
theorem c6_witness : generateFallbackTopic [] = Except.ok "💬 New Chat" :=
  (c6_fallback_topic_total [] (by simp)).2.1 rfl

/-- C10: keyword matching in the fallback policy is substring
containment on the lowercased content of the first user-role message:
two lists whose first user contents agree after lowercasing get the
same topic, and whenever the map splits into a prefix of non-occurring
keywords followed by an entry whose keyword occurs anywhere in the
lowercased content, that entry (the first match in enumeration order)
supplies the topic. -/
theorem c10_keyword_first_match
    (msgs msgs2 : List RawMsg) (m m2 : RawMsg) (rest rest2 : List RawMsg) (c c2 : String)
    (hf : msgs.filter (fun x => x.role == some "user") = m :: rest)
    (hc : m.content = some c)
    (hf2 : msgs2.filter (fun x => x.role == some "user") = m2 :: rest2)
    (hc2 : m2.content = some c2)
    (hcase : jsToLower c = jsToLower c2) :
    generateFallbackTopic msgs = generateFallbackTopic msgs2 ∧
    ∀ pre k t post, topicMap = pre ++ (k, t) :: post →
      strContains (jsToLower c) k = true →
      (∀ kv ∈ pre, strContains (jsToLower c) kv.1 = false) →
      generateFallbackTopic msgs = Except.ok t := by
  have h1 := generateFallbackTopic_first_user msgs m rest c hf hc
  have h2 := generateFallbackTopic_first_user msgs2 m2 rest2 c2 hf2 hc2
  constructor
  · rw [h1, h2, hcase]
  · intro pre k t post hsplit hk hpre
    rw [h1]
    unfold keywordTopic
    rw [hsplit, find_first_of_split (fun kv => strContains (jsToLower c) kv.1) pre (k, t) post
      hk hpre]

/-- C10 (witness): "job" occurring inside "JOBLESS" selects the work
label (the 14th map entry, all earlier keywords failing), and
lowercasing makes the match case-insensitive. -/
theorem c10_witness :
    generateFallbackTopic [{ role := some "user", content := some "I feel JOBLESS" }] =
      Except.ok "💼 Work Stress" ∧
    generateFallbackTopic [{ role := some "user", content := some "I feel JOBLESS" }] =
      generateFallbackTopic [{ role := some "user", content := some "i feel jobless" }] :=
  ⟨(c10_keyword_first_match
      [{ role := some "user", content := some "I feel JOBLESS" }]
      [{ role := some "user", content := some "i feel jobless" }]
      { role := some "user", content := some "I feel JOBLESS" }
      { role := some "user", content := some "i feel jobless" } [] []
      "I feel JOBLESS" "i feel jobless" rfl rfl rfl rfl (by decide)).2
      (topicMap.take 13) "job" "💼 Work Stress" (topicMap.drop 14)
      (by decide) (by decide) (by decide),
    (c10_keyword_first_match
      [{ role := some "user", content := some "I feel JOBLESS" }]
      [{ role := some "user", content := some "i feel jobless" }]
      { role := some "user", content := some "I feel JOBLESS" }
      { role := some "user", content := some "i feel jobless" } [] []
      "I feel JOBLESS" "i feel jobless" rfl rfl rfl rfl (by decide)).1⟩

/-- If the fallback policy throws, the first user-role message exists
and lacks content, so some message of the list lacks content. -/
theorem fallback_error_has_missing_content (msgs : List RawMsg)
    (h : generateFallbackTopic msgs = Except.error ()) :
    msgs.any (fun x => x.content.isNone) = true := by
  by_cases hemp : msgs.isEmpty = true
  · rw [generateFallbackTopic] at h
    simp [hemp] at h
  · cases hf : msgs.filter (fun x => x.role == some "user") with
    | nil =>
        rw [generateFallbackTopic] at h
        simp [hemp, hf] at h
    | cons mhd rest =>
        cases hc : mhd.content with
        | some c =>
            rw [generateFallbackTopic_first_user msgs mhd rest c hf hc] at h
            simp at h
        | none =>
            have hmem : mhd ∈ msgs :=
              (List.mem_filter.mp (hf ▸ List.mem_cons_self mhd rest)).1
            rw [List.any_eq_true]
            exact ⟨mhd, hmem, by simp [hc]⟩

/-- A list whose members all have content has no member without. -/
theorem all_content_no_missing (msgs : List RawMsg)
    (hall : msgs.all (fun x => x.content.isSome) = true) :
    msgs.any (fun x => x.content.isNone) = false := by
  cases hany : msgs.any (fun x => x.content.isNone) with
  | false => rfl
  | true =>
      rcases List.any_eq_true.mp hany with ⟨x, hx, hpx⟩
      have hs := List.all_eq_true.mp hall x hx
      cases hcx : x.content <;> simp [hcx] at hpx hs

/-- C7 (counterexample): with a well-formed, non-empty message list
but no authenticated caller, `generateTopic` answers the
unauthenticated error (HTTP 401), not the validation error (HTTP 400)
the claim asserts. -/
theorem c7_counterexample :
    generateTopic (Except.ok "Topic") none
        (MsgsBody.arr [{ role := some "user", content := some "hi" }]) =
      TopicResult.unauthenticated ∧
    generateTopic (Except.ok "Topic") none
        (MsgsBody.arr [{ role := some "user", content := some "hi" }]) ≠
      TopicResult.validationError := by
  decide

/-- C7 (amended): `generateTopic` fails with the validation error when
the messages field is missing, not an array, or empty, and with the
unauthenticated error when no caller identity is present; when the
oracle call fails, or its answer is empty or longer than 50 units
after quote-stripping and trimming, the fallback policy supplies the
topic; and when the fallback policy itself throws, the hardcoded
ultimate-fallback topic is reported with the error. -/
theorem c7_amended_generate_topic :
    (∀ o u, generateTopic o u MsgsBody.missing = TopicResult.validationError) ∧
    (∀ o u, generateTopic o u MsgsBody.notArray = TopicResult.validationError) ∧
    (∀ o u, generateTopic o u (MsgsBody.arr []) = TopicResult.validationError) ∧
    (∀ o msgs, msgs ≠ [] →
      generateTopic o none (MsgsBody.arr msgs) = TopicResult.unauthenticated) ∧
    (∀ uid msgs t, msgs ≠ [] → msgs.all (fun x => x.content.isSome) = true →
      generateFallbackTopic msgs = Except.ok t →
      generateTopic (Except.error ()) (some uid) (MsgsBody.arr msgs) = TopicResult.ok t) ∧
    (∀ uid msgs s t, msgs ≠ [] → msgs.all (fun x => x.content.isSome) = true →
      (jsTrim (stripQuotes (jsTrim s)) = "" ∨ jsLength (jsTrim (stripQuotes (jsTrim s))) > 50) →
      generateFallbackTopic msgs = Except.ok t →
      generateTopic (Except.ok s) (some uid) (MsgsBody.arr msgs) = TopicResult.ok t) ∧
    (∀ o uid msgs, msgs ≠ [] → generateFallbackTopic msgs = Except.error () →
      generateTopic o (some uid) (MsgsBody.arr msgs) =
        TopicResult.serverError "💬 Therapy Session") := by
  refine ⟨fun o u => rfl, fun o u => rfl, fun o u => rfl, ?_, ?_, ?_, ?_⟩
  · intro o msgs hne
    have hemp : msgs.isEmpty = false := by
      cases msgs with
      | nil => exact absurd rfl hne
      | cons a l => rfl
    simp [generateTopic, hemp]
  · intro uid msgs t hne hall hfb
    have hemp : msgs.isEmpty = false := by
      cases msgs with
      | nil => exact absurd rfl hne
      | cons a l => rfl
    have hany := all_content_no_missing msgs hall
    simp [generateTopic, hemp, hany, topicCatch, hfb]
  · intro uid msgs s t hne hall hcond hfb
    have hemp : msgs.isEmpty = false := by
      cases msgs with
      | nil => exact absurd rfl hne
      | cons a l => rfl
    have hany := all_content_no_missing msgs hall
    simp only [generateTopic, hemp, hany, Bool.false_eq_true, if_false, reduceIte]
    rw [if_pos hcond, hfb]
  · intro o uid msgs hne hfb
    have hemp : msgs.isEmpty = false := by
      cases msgs with
      | nil => exact absurd rfl hne
      | cons a l => rfl
    have hany := fallback_error_has_missing_content msgs hfb
    simp [generateTopic, hemp, hany, topicCatch, hfb]

/-- C7 (witness): oracle failure falls back to the keyword topic. -/
theorem c7_witness :
    generateTopic (Except.error ()) (some "u")
        (MsgsBody.arr [{ role := some "user", content := some "I cannot sleep at night" }]) =
      TopicResult.ok "😴 Sleep Issues" :=
  c7_amended_generate_topic.2.2.2.2.1 "u"
    [{ role := some "user", content := some "I cannot sleep at night" }] "😴 Sleep Issues"
    (by decide) (by decide) rfl

/-- Truncation by UTF-16 units never exceeds the requested length. -/
theorem sum_takeUtf16_le (n : Nat) (l : List Char) :
    ((takeUtf16 n l).map utf16Width).sum ≤ n := by
  induction l generalizing n with
  | nil => simp [takeUtf16]
  | cons c cs ih =>
      unfold takeUtf16
      by_cases h : utf16Width c ≤ n
      · simp only [h, if_true, List.map_cons, List.sum_cons]
        have := ih (n - utf16Width c)
        omega
      · simp [h]

/-- The truncated topic is at most `n` UTF-16 units long. -/
theorem jsLength_jsSubstringTo (s : String) (n : Nat) :
    jsLength (jsSubstringTo s n) ≤ n := by
  simpa [jsLength, jsSubstringTo] using sum_takeUtf16_le n s.toList

/-- C8: `updateSessionTopic` rejects a missing, non-string, or
trim-empty topic with the validation error, answers not-found for an
absent session and forbidden for a non-owner caller, each leaving the
store unchanged; and for an owner, a valid topic and a successful
save it stores the trimmed topic truncated to at most 100 UTF-16
units and answers exactly the stored value. -/
theorem c8_update_session_topic :
    (∀ so store u sid, updateSessionTopic so store u sid BodyValue.missing =
      (UpdateResult.validationError, store)) ∧
    (∀ so store u sid, updateSessionTopic so store u sid BodyValue.nonString =
      (UpdateResult.validationError, store)) ∧
    (∀ so store u sid s, (jsTrim s).isEmpty = true →
      updateSessionTopic so store u sid (BodyValue.text s) =
        (UpdateResult.validationError, store)) ∧
    (∀ so store uid sid s, (jsTrim s).isEmpty = false → findSession sid store = none →
      updateSessionTopic so store (some uid) sid (BodyValue.text s) =
        (UpdateResult.notFound, store)) ∧
    (∀ so store uid sid s session, (jsTrim s).isEmpty = false →
      findSession sid store = some session → session.userId ≠ uid →
      updateSessionTopic so store (some uid) sid (BodyValue.text s) =
        (UpdateResult.forbidden, store)) ∧
    (∀ store sid s session, (jsTrim s).isEmpty = false →
      findSession sid store = some session →
      updateSessionTopic true store (some session.userId) sid (BodyValue.text s) =
        (UpdateResult.ok (jsSubstringTo (jsTrim s) 100),
          saveSession { session with topic := some (jsSubstringTo (jsTrim s) 100) } store) ∧
      jsLength (jsSubstringTo (jsTrim s) 100) ≤ 100) := by
  refine ⟨fun so store u sid => rfl, fun so store u sid => rfl, ?_, ?_, ?_, ?_⟩
  · intro so store u sid s hs
    simp [updateSessionTopic, hs]
  · intro so store uid sid s hs hfind
    simp [updateSessionTopic, hs, hfind]
  · intro so store uid sid s session hs hfind hown
    simp [updateSessionTopic, hs, hfind, hown]
  · intro store sid s session hs hfind
    refine ⟨?_, jsLength_jsSubstringTo (jsTrim s) 100⟩
    simp [updateSessionTopic, hs, hfind]

/-- C8 (witness): the owner stores a trimmed topic. -/
theorem c8_witness :
    updateSessionTopic true [sessA] (some sessA.userId) "s1" (BodyValue.text "  My Topic  ") =
      (UpdateResult.ok (jsSubstringTo (jsTrim "  My Topic  ") 100),
        saveSession { sessA with topic := some (jsSubstringTo (jsTrim "  My Topic  ") 100) }
          [sessA]) ∧
    jsLength (jsSubstringTo (jsTrim "  My Topic  ") 100) ≤ 100 :=
  c8_update_session_topic.2.2.2.2.2 [sessA] "s1" "  My Topic  " sessA (by decide) (by decide)
